import Mathlib

set_option maxRecDepth 200000
set_option maxHeartbeats 1600000

/-
  Verification development for the TalentScout screening assistant
  (src/app.py).  The core of the program is a conversation state machine
  over a per-session record, together with pure field validators, a
  table-driven tech-stack extractor, and a question generator that calls a
  remote language-model gateway.  Everything below is a shallow embedding
  of that core, translated function by function from src/app.py.

  Modelling conventions:
  - Python strings are Lean String values; Python string indices and
    lengths are codepoint counts, matching String.length.
  - Python regular-expression character classes are modelled over their
    ASCII fragment (the program only feeds chat text through them); the
    whitespace class is the ASCII set of Python \s.
  - The language-model HTTP call (ask_llama) is an external collaborator;
    it is modelled as an oracle of type String -> String mapping the
    prompt to the returned text (the fixed system context, max_tokens and
    temperature are constants of the single call site and are folded into
    the oracle).  An "error" outcome is a returned string carrying the
    error marker, exactly as in the source.
  - datetime timestamps on stored answers are wall-clock I/O and are
    omitted from the answer record; no claim mentions them.
-/

namespace TalentScout

/-! ### Python string primitives used by app.py -/

/-- The apostrophe character (codepoint 39). -/
def aposChar : Char := Char.ofNat 39

/-- The double-quote character (codepoint 34). -/
def dquoteChar : Char := Char.ofNat 34

/-- Apostrophe as a one-character string, used to spell message texts. -/
def apos : String := String.mk [aposChar]

/-- ASCII fragment of Python whitespace (str.strip and the regex class \s). -/
def isSpaceChar (c : Char) : Bool :=
  decide (c = ' ') || decide (c = '\t') || decide (c = '\n') || decide (c = '\r') ||
  decide (c = Char.ofNat 11) || decide (c = Char.ofNat 12)

/-- Python str.strip(): drop whitespace from both ends. -/
def pyStrip (s : String) : String :=
  String.mk (((s.data.dropWhile isSpaceChar).reverse.dropWhile isSpaceChar).reverse)

/-- Python str.lower() on the ASCII letters the program feeds it. -/
def pyLower (s : String) : String :=
  String.mk (s.data.map Char.toLower)

/-- Helper for str.title(): uppercase a letter that follows a non-letter,
lowercase a letter that follows a letter; the flag records whether the
previous character was a letter. -/
def titleAux : List Char → Bool → List Char
  | [], _ => []
  | c :: cs, prevAlpha =>
    (if c.isAlpha then (if prevAlpha then c.toLower else c.toUpper) else c)
      :: titleAux cs c.isAlpha

/-- Python str.title() on ASCII text. -/
def pyTitle (s : String) : String :=
  String.mk (titleAux s.data false)

/-- List-level string prefix test. -/
def startsWithL : List Char → List Char → Bool
  | [], _ => true
  | _ :: _, [] => false
  | a :: ps, b :: ss => if a = b then startsWithL ps ss else false

/-- Python str.startswith(marker). -/
def pyStartswith (s pre : String) : Bool :=
  startsWithL pre.data s.data

/-- Substring containment, Python `needle in haystack`. -/
def containsL : List Char → List Char → Bool
  | p, [] => startsWithL p []
  | p, c :: rest => startsWithL p (c :: rest) || containsL p rest

/-- Python ", ".join. -/
def joinComma : List String → String
  | [] => ""
  | [t] => t
  | t :: rest => t ++ ", " ++ joinComma rest

/-- Python list(dict.fromkeys(l)): deduplicate keeping the first
occurrence of each element, in order; seen accumulates kept elements. -/
def dedupFirst (seen : List String) : List String → List String
  | [] => []
  | t :: rest =>
    if t ∈ seen then dedupFirst seen rest else t :: dedupFirst (t :: seen) rest

/-! ### Validators (src/app.py lines 63-86) -/

/-- Character class of the local part of the email pattern. -/
def isLocalChar (c : Char) : Bool :=
  c.isAlpha || c.isDigit || decide (c = '.') || decide (c = '_') ||
  decide (c = '%') || decide (c = '+') || decide (c = '-')

/-- Character class of the domain part of the email pattern. -/
def isDomainChar (c : Char) : Bool :=
  c.isAlpha || c.isDigit || decide (c = '.') || decide (c = '-')

/-- Matcher for the part after the at sign: some dot splits it into a
nonempty domain of domain characters and a tld of at least two letters. -/
def emailDomainTld (rest : List Char) : Bool :=
  (List.range rest.length).any (fun k =>
    decide (rest.getD k ' ' = '.') && decide (0 < k) &&
    (rest.take k).all isDomainChar &&
    decide (2 ≤ rest.length - (k + 1)) && (rest.drop (k + 1)).all Char.isAlpha)

/-- Full anchored match of the email regex body.  The local part of any
match is forced to be the maximal at-sign-free prefix, because its
character class excludes the at sign, so the match head after it is the
at sign itself. -/
def emailCore (s : List Char) : Bool :=
  let l := s.takeWhile (fun c => decide (c ≠ '@'))
  match s.drop l.length with
  | [] => false
  | _ :: rest => !l.isEmpty && l.all isLocalChar && emailDomainTld rest

/-- The dollar anchor of re.match also matches just before one trailing
newline, so the body may alternatively match the string without it. -/
def emailFull (s : List Char) : Bool :=
  emailCore s ||
  (match s.getLast? with
   | some c => decide (c = '\n') && emailCore s.dropLast
   | none => false)

/-- validate_email (src/app.py lines 63-68). -/
def validate_email (email : String) : Bool :=
  if email.length < 5 || 254 < email.length then false
  else emailFull email.data

/-- Characters removed by the phone cleaner re.sub over whitespace,
hyphens and parentheses. -/
def isPhoneStripChar (c : Char) : Bool :=
  isSpaceChar c || decide (c = '-') || decide (c = '(') || decide (c = ')')

/-- The cleaned character list of a phone string. -/
def phoneClean (s : String) : List Char :=
  s.data.filter (fun c => !isPhoneStripChar c)

/-- The regex class [1-9]: a digit other than zero. -/
def isNonzeroDigit (c : Char) : Bool :=
  c.isDigit && decide (c ≠ '0')

/-- Anchored match of the phone pattern: a plus followed by a nonzero
digit and one to fourteen digits, or a nonzero digit followed by exactly
nine digits. -/
def phoneMatch (l : List Char) : Bool :=
  match l with
  | [] => false
  | c :: rest =>
    if c = '+' then
      match rest with
      | [] => false
      | d :: ds =>
        isNonzeroDigit d && ds.all Char.isDigit &&
        decide (1 ≤ ds.length) && decide (ds.length ≤ 14)
    else
      isNonzeroDigit c && rest.all Char.isDigit && decide (rest.length = 9)

/-- validate_phone (src/app.py lines 70-76). -/
def validate_phone (phone : String) : Bool :=
  if phone.data.isEmpty then false
  else phoneMatch (phoneClean phone)

/-- First maximal run of digits anywhere in the text: the head match of
re.findall over the one-or-more-digits pattern. -/
def firstDigitRun (s : List Char) : List Char :=
  (s.dropWhile (fun c => !c.isDigit)).takeWhile Char.isDigit

/-- Numeric value of a digit run, as Python int() of the matched text. -/
def digitsToNat (l : List Char) : Nat :=
  l.foldl (fun acc c => acc * 10 + (c.toNat - 48)) 0

/-- validate_experience (src/app.py lines 78-86).  The lower bound zero
of the Python range check is automatic on Nat. -/
def validate_experience (experience : String) : Bool :=
  if experience.data.isEmpty then false
  else
    if (firstDigitRun experience.data).isEmpty then false
    else decide (digitsToNat (firstDigitRun experience.data) ≤ 50)

/-! ### Tech-stack extractor (src/app.py lines 88-107) -/

/-- The fixed category table, categories and tokens in source order. -/
def tech_categories : List (String × List String) :=
  [("languages", ["python", "java", "javascript", "typescript", "c++", "c#",
                  "go", "rust", "php", "ruby", "swift", "kotlin"]),
   ("frameworks", ["react", "angular", "vue", "nodejs", "express", "django",
                   "flask", "spring", "laravel", "rails", "fastapi"]),
   ("databases", ["mysql", "postgresql", "mongodb", "redis", "sqlite",
                  "oracle", "cassandra", "elasticsearch"]),
   ("cloud", ["aws", "azure", "gcp", "google cloud", "docker", "kubernetes",
              "jenkins", "git", "linux"]),
   ("web", ["html", "css", "bootstrap", "tailwind", "sass", "jquery", "webpack"]),
   ("ml", ["tensorflow", "pytorch", "scikit-learn", "pandas", "numpy",
           "keras", "opencv"])]

/-- extract_tech_stack: lowercase the text, walk the table in order,
collect the title-cased form of every token that occurs as a substring,
then deduplicate keeping first occurrences. -/
def extract_tech_stack (text : String) : List String :=
  let text_lower := (pyLower text).data
  let found_tech :=
    (tech_categories.map (fun cat =>
      (cat.2.filter (fun tech => containsL tech.data text_lower)).map pyTitle)).flatten
  dedupFirst [] found_tech

/-! ### Ending detection (src/app.py lines 266-275)

The four patterns are Python regular expressions over the lowercased
input, searched with re.search.  Their word-boundary anchors always sit
next to a word character of the pattern itself, so a boundary holds
exactly when the neighbouring input character (if any) is not a word
character.  The dot of the second pattern does not match a newline. -/

/-- The regex word class \w over ASCII. -/
def isWordChar (c : Char) : Bool :=
  c.isAlpha || c.isDigit || decide (c = '_')

/-- Word boundary on the left of position i, whose right side is a word
character of the pattern. -/
def leftBoundary (s : List Char) (i : Nat) : Bool :=
  decide (i = 0) || !isWordChar (s.getD (i - 1) ' ')

/-- Word boundary on the right of position j, whose left side is a word
character of the pattern. -/
def rightBoundary (s : List Char) (j : Nat) : Bool :=
  !isWordChar (s.getD j ' ')

/-- The pattern text occurs at position i of the input. -/
def phraseAt (w s : List Char) (i : Nat) : Bool :=
  startsWithL w (s.drop i)

/-- re.search of a pattern that is an alternation of literal phrases
between two word boundaries. -/
def searchSimple (ws : List (List Char)) (s : List Char) : Bool :=
  (List.range (s.length + 1)).any (fun i =>
    ws.any (fun w => phraseAt w s i && leftBoundary s i && rightBoundary s (i + w.length)))

/-- re.search of a pattern of the form: boundary, first alternation,
dot-star, second alternation, boundary.  The dot-star spans no newline. -/
def searchCompound (ws1 ws2 : List (List Char)) (s : List Char) : Bool :=
  (List.range (s.length + 1)).any (fun i =>
    ws1.any (fun w1 =>
      phraseAt w1 s i && leftBoundary s i &&
      (List.range (s.length + 1)).any (fun j =>
        decide (i + w1.length ≤ j) &&
        ws2.any (fun w2 =>
          phraseAt w2 s j && rightBoundary s (j + w2.length) &&
          ((s.drop (i + w1.length)).take (j - (i + w1.length))).all
            (fun c => decide (c ≠ '\n'))))))

/-- detect_conversation_ending: any of the four ending patterns matches
the lowercased input. -/
def detect_conversation_ending (user_input : String) : Bool :=
  let s := (pyLower user_input).data
  searchSimple (["bye", "goodbye", "exit", "quit", "stop", "end", "finish"].map String.data) s ||
  searchCompound (["thank you", "thanks"].map String.data)
    (["bye", "goodbye", "done"].map String.data) s ||
  searchSimple (["done", "finished", "complete"].map String.data) s ||
  searchSimple (["no more", "nothing else", "that" ++ apos ++ "s all"].map String.data) s

/-! ### Data model (initialize_session_state, src/app.py lines 17-33)

The session fields touched by the conversation handlers.  The chat
transcript, session id and start time are presentation-layer values never
read by the handlers and are omitted. -/

/-- The conversation stages assigned by the program. -/
inductive Stage
  | greeting
  | info_gathering
  | generating_questions
  | technical_questions
  | conclusion
deriving DecidableEq

/-- The candidate record; an empty string or empty list means unset. -/
structure CandidateInfo where
  name : String
  email : String
  phone : String
  experience : String
  position : String
  location : String
  tech_stack : List String
deriving DecidableEq

/-- A recorded answer: the question shown and the stripped answer text.
The wall-clock timestamp of the source is I/O and is omitted. -/
structure TechnicalAnswer where
  question : String
  answer : String
deriving DecidableEq

/-- The session state the conversation handlers read and write. -/
structure SessionState where
  conversation_stage : Stage
  candidate_info : CandidateInfo
  technical_questions : List String
  technical_answers : List TechnicalAnswer
  current_question_index : Nat
  conversation_ended : Bool
deriving DecidableEq

/-- The defaults of initialize_session_state. -/
def initialState : SessionState :=
  { conversation_stage := Stage.greeting
    candidate_info :=
      { name := "", email := "", phone := "", experience := "",
        position := "", location := "", tech_stack := [] }
    technical_questions := []
    technical_answers := []
    current_question_index := 0
    conversation_ended := false }

/-! ### Question generator (src/app.py lines 110-134) -/

/-- The error marker every failed gateway call is prefixed with. -/
def errMarker : String := "❌"

/-- The per-technology prompt sent to the gateway. -/
def question_prompt (tech : String) : String :=
  "Generate 1 technical interview question for " ++ tech ++ " technology.\n\nRequirements:\n- Assess practical knowledge and problem-solving skills\n- Appropriate for professional experience level\n- Not too basic or extremely advanced\n- Answerable in 2-3 paragraphs\n- Focus on real-world scenarios\n\nReturn only the question without additional formatting."

/-- Strip the returned question and remove double and single quotes. -/
def cleanQuestion (q : String) : String :=
  String.mk ((pyStrip q).data.filter
    (fun c => !(decide (c = dquoteChar) || decide (c = aposChar))))

/-- generate_technical_questions: one gateway call per selected
technology; a call whose result is empty or carries the error marker
contributes nothing, a successful one contributes the labeled cleaned
question.  The source default num_questions = 3 is passed explicitly by
the one call site. -/
def generate_technical_questions (llm : String → String)
    (tech_stack : List String) (num_questions : Nat) : List String :=
  let selected_techs :=
    if num_questions ≤ tech_stack.length then tech_stack.take num_questions else tech_stack
  selected_techs.filterMap (fun tech =>
    let question := llm (question_prompt tech)
    if decide (question ≠ "") && !pyStartswith question errMarker then
      some ("**" ++ tech ++ "**: " ++ cleanQuestion question)
    else none)

/-! ### Response texts of the handlers -/

/-- Reply once the conversation has already ended. -/
def ended_message : String :=
  "This conversation has ended. Please refresh the page to start a new session."

/-- Reply that ends the conversation. -/
def closing_message : String :=
  "👋 **Thank you for using TalentScout AI!**\n\nWe appreciate your time and interest. Our team will be in touch soon!\n\n**Have a great day!** 🌟\n\n*This conversation has ended. Refresh the page to start a new session.*"

/-- Reply when question generation produced nothing usable. -/
def generation_failed_message : String :=
  "❌ I encountered an issue generating questions. Please try again."

/-- Static reply of the conclusion stage. -/
def conclusion_message : String :=
  "Thank you for your question! Our team will provide comprehensive information during the next phase.\n\nIs there anything else about the screening process, or are you ready to conclude?\n\n*Say " ++ apos ++ "bye" ++ apos ++ " or " ++ apos ++ "exit" ++ apos ++ " when ready to end.*"

/-- Prompt after the location is recorded, asking for the tech stack. -/
def tech_stack_prompt_message : String :=
  "🛠️ Finally, let" ++ apos ++ "s discuss your technical expertise!\n\nPlease list your **technical skills and tech stack**:\n\n**Example:** \"Python, Django, React, PostgreSQL, AWS, Docker\"\n\n*This helps me generate relevant technical questions.*"

/-- Prompt after the phone number is recorded. -/
def experience_prompt_message : String :=
  "💼 Great! How many **years of professional experience** do you have?\n\n*Please provide a number (e.g., " ++ apos ++ "3 years" ++ apos ++ " or " ++ apos ++ "5" ++ apos ++ ")*"

/-- Summary returned when the record is complete. -/
def summary_message (info : CandidateInfo) : String :=
  "✅ **Information Collection Complete!**\n\n**Summary:**\n- **Name:** " ++ info.name ++ "\n- **Email:** " ++ info.email ++ "\n- **Position:** " ++ info.position ++ "\n- **Experience:** " ++ info.experience ++ "\n- **Tech Stack:** " ++ joinComma info.tech_stack ++ "\n\n🧠 **Generating Technical Questions...please type \"continue\"**"

/-- First question announcement after successful generation. -/
def assessment_ready_message (questions : List String) : String :=
  "🧠 **Technical Assessment Ready!**\n\n**Question 1 of " ++ toString questions.length ++ ":**\n" ++ questions.headD "" ++ "\n\n*Please provide your answer based on your experience. If you can" ++ apos ++ "t answer the question type \"Continue\" *"

/-- Acknowledgement plus the next question, numbered progress of total. -/
def answer_recorded_message (progress total : Nat) (next_question : String) : String :=
  "✅ **Thank you for your answer!**\n\n**Question " ++ toString progress ++ " of " ++ toString total ++ ":**\n" ++ next_question ++ "\n\n*Please provide your answer based on your experience.*"

/-- Closing summary once the last question is answered. -/
def questions_complete_message : String :=
  "🎉 **Technical Questions Complete!**\n\nYou" ++ apos ++ "ve successfully answered all technical questions. Thank you for completing the screening process.\n\n**Next Steps:**\n- Our team will review your responses within 2-3 business days\n- You" ++ apos ++ "ll receive an email update about the next phase\n- If selected, we" ++ apos ++ "ll schedule a detailed technical interview\n\n*You can say " ++ apos ++ "bye" ++ apos ++ " or " ++ apos ++ "exit" ++ apos ++ " when ready to end our conversation.*"

/-! ### Conversation handlers (src/app.py lines 151-336)

Each handler returns the new session state and the reply; the reply is
Option String because the Python functions fall through to None when
every field is already set (information gathering) or the cursor is
already past the last question (technical questions). -/

/-- handle_information_gathering: the first empty field in the fixed
order decides which validator runs; success stores the field and prompts
for the next one, failure re-prompts for the same field. -/
def handle_information_gathering (st : SessionState) (user_input : String) :
    SessionState × Option String :=
  let info := st.candidate_info
  if info.name = "" then
    if 2 ≤ (pyStrip user_input).length then
      ({ st with candidate_info := { info with name := pyTitle (pyStrip user_input) } },
       some ("Nice to meet you, **" ++ pyTitle (pyStrip user_input) ++ "**! 📧\n\nCould you please provide your **email address**?"))
    else (st, some "Please provide your full name (at least 2 characters):")
  else if info.email = "" then
    if validate_email (pyStrip user_input) then
      ({ st with candidate_info := { info with email := pyLower (pyStrip user_input) } },
       some "📱 Perfect! Now, could you please provide your **phone number**?")
    else (st, some "❌ Please provide a valid email address (e.g., name@company.com):")
  else if info.phone = "" then
    if validate_phone (pyStrip user_input) then
      ({ st with candidate_info := { info with phone := pyStrip user_input } },
       some experience_prompt_message)
    else (st, some "❌ Please provide a valid phone number:")
  else if info.experience = "" then
    if validate_experience (pyStrip user_input) then
      ({ st with candidate_info := { info with experience := pyStrip user_input } },
       some "🎯 Excellent! What **position(s)** are you interested in?\n\n*Examples: Software Engineer, Data Scientist, Full Stack Developer*")
    else (st, some "❌ Please provide your years of experience as a number:")
  else if info.position = "" then
    if 3 ≤ (pyStrip user_input).length then
      ({ st with candidate_info := { info with position := pyTitle (pyStrip user_input) } },
       some "📍 Perfect! Could you please tell me your **current location**?")
    else (st, some "Please provide a valid position title (at least 3 characters):")
  else if info.location = "" then
    if 2 ≤ (pyStrip user_input).length then
      ({ st with candidate_info := { info with location := pyTitle (pyStrip user_input) } },
       some tech_stack_prompt_message)
    else (st, some "Please provide your location (at least 2 characters):")
  else if info.tech_stack.isEmpty then
    if 2 ≤ (extract_tech_stack user_input).length then
      ({ st with
          candidate_info := { info with tech_stack := extract_tech_stack user_input }
          conversation_stage := Stage.generating_questions },
       some (summary_message { info with tech_stack := extract_tech_stack user_input }))
    else (st, some "❌ I need at least 2 technologies to generate relevant questions. Please provide more technical skills.")
  else (st, none)

/-- handle_technical_questions: record the stripped input as the answer
to the question at the cursor, advance the cursor, and either show the
next question or conclude on the last one. -/
def handle_technical_questions (st : SessionState) (user_input : String) :
    SessionState × Option String :=
  if st.current_question_index < st.technical_questions.length then
    if st.current_question_index + 1 < st.technical_questions.length then
      ({ st with
          technical_answers := st.technical_answers ++
            [⟨st.technical_questions.getD st.current_question_index "", pyStrip user_input⟩]
          current_question_index := st.current_question_index + 1 },
       some (answer_recorded_message (st.current_question_index + 2)
         st.technical_questions.length
         (st.technical_questions.getD (st.current_question_index + 1) "")))
    else
      ({ st with
          technical_answers := st.technical_answers ++
            [⟨st.technical_questions.getD st.current_question_index "", pyStrip user_input⟩]
          current_question_index := st.current_question_index + 1
          conversation_stage := Stage.conclusion },
       some questions_complete_message)
  else (st, none)

/-- handle_conversation: the top-level dispatcher.  The ended flag and
ending detection are checked before any stage handler runs.  The Python
else branch for an unrecognized stage string and the top-level exception
handler are unreachable in this embedding: Stage is exhaustive and every
handler is a total pure function. -/
def handle_conversation (llm : String → String) (st : SessionState)
    (user_input : String) : SessionState × Option String :=
  if st.conversation_ended then (st, some ended_message)
  else if detect_conversation_ending user_input then
    ({ st with conversation_ended := true }, some closing_message)
  else
    match st.conversation_stage with
    | Stage.greeting =>
      handle_information_gathering
        { st with conversation_stage := Stage.info_gathering } user_input
    | Stage.info_gathering => handle_information_gathering st user_input
    | Stage.generating_questions =>
      if !(generate_technical_questions llm st.candidate_info.tech_stack
            (min 3 st.candidate_info.tech_stack.length)).isEmpty &&
          !((generate_technical_questions llm st.candidate_info.tech_stack
            (min 3 st.candidate_info.tech_stack.length)).any
              (fun q => pyStartswith q errMarker)) then
        ({ st with
            technical_questions := generate_technical_questions llm
              st.candidate_info.tech_stack (min 3 st.candidate_info.tech_stack.length)
            current_question_index := 0
            conversation_stage := Stage.technical_questions },
         some (assessment_ready_message (generate_technical_questions llm
           st.candidate_info.tech_stack (min 3 st.candidate_info.tech_stack.length))))
      else (st, some generation_failed_message)
    | Stage.technical_questions => handle_technical_questions st user_input
    | Stage.conclusion => (st, some conclusion_message)

/-! ### Iterated runs and derived notions used by the claims -/

/-- Fold a list of user inputs through the top-level dispatcher. -/
def runConversation (llm : String → String) (st : SessionState)
    (inputs : List String) : SessionState :=
  inputs.foldl (fun s i => (handle_conversation llm s i).fst) st

/-- Fold a list of answer inputs through the technical-questions handler. -/
def runTech (st : SessionState) (inputs : List String) : SessionState :=
  inputs.foldl (fun s i => (handle_technical_questions s i).fst) st

/-- Position of each stage in the forward order of the state machine. -/
def stageRank : Stage → Nat
  | Stage.greeting => 0
  | Stage.info_gathering => 1
  | Stage.generating_questions => 2
  | Stage.technical_questions => 3
  | Stage.conclusion => 4

/-- The record fills left to right: a set field implies every earlier
field is set. -/
def orderOK (i : CandidateInfo) : Prop :=
  (i.email ≠ "" → i.name ≠ "") ∧
  (i.phone ≠ "" → i.email ≠ "") ∧
  (i.experience ≠ "" → i.phone ≠ "") ∧
  (i.position ≠ "" → i.experience ≠ "") ∧
  (i.location ≠ "" → i.position ≠ "") ∧
  (i.tech_stack ≠ [] → i.location ≠ "")

instance (i : CandidateInfo) : Decidable (orderOK i) := by
  unfold orderOK; infer_instance

/-- Every field of the old record that is set keeps its exact value in
the new record. -/
def preservesFilled (old new : CandidateInfo) : Prop :=
  (old.name ≠ "" → new.name = old.name) ∧
  (old.email ≠ "" → new.email = old.email) ∧
  (old.phone ≠ "" → new.phone = old.phone) ∧
  (old.experience ≠ "" → new.experience = old.experience) ∧
  (old.position ≠ "" → new.position = old.position) ∧
  (old.location ≠ "" → new.location = old.location) ∧
  (old.tech_stack ≠ [] → new.tech_stack = old.tech_stack)

instance (a b : CandidateInfo) : Decidable (preservesFilled a b) := by
  unfold preservesFilled; infer_instance

/-! ### Concrete sessions and oracles used by witnesses -/

/-- An oracle whose every call returns the empty string; it is never
consulted on the scenarios that stay before the generation stage. -/
def llm0 : String → String := fun _ => ""

/-- An oracle that succeeds for Python and fails for every other
technology, exercising a partial generation failure. -/
def llmMixed : String → String := fun p =>
  if p = question_prompt "Python" then
    "What is a Python decorator and when would you use one"
  else "❌ Request timed out. Please try again."

/-- A fresh session already advanced to information gathering. -/
def infoStart : SessionState :=
  { initialState with conversation_stage := Stage.info_gathering }

/-- The end-to-end scenario inputs of the specification. -/
def scenarioInputs : List String :=
  ["Jane Doe", "jane@co.io", "+14155550100", "4 years",
   "Backend Engineer", "Austin", "Python, Django, PostgreSQL"]

/-- The session state the scenario actually reaches. -/
def scenarioFinal : SessionState :=
  { conversation_stage := Stage.generating_questions
    candidate_info :=
      { name := "Jane Doe", email := "jane@co.io", phone := "+14155550100",
        experience := "4 years", position := "Backend Engineer",
        location := "Austin",
        tech_stack := ["Python", "Go", "Django", "Postgresql"] }
    technical_questions := []
    technical_answers := []
    current_question_index := 0
    conversation_ended := false }

/-- A session about to generate questions for two technologies. -/
def genState : SessionState :=
  { conversation_stage := Stage.generating_questions
    candidate_info :=
      { name := "Jane Doe", email := "jane@co.io", phone := "+14155550100",
        experience := "4 years", position := "Backend Engineer",
        location := "Austin", tech_stack := ["Python", "Django"] }
    technical_questions := []
    technical_answers := []
    current_question_index := 0
    conversation_ended := false }

/-- A session at the first of two stored technical questions. -/
def techState : SessionState :=
  { genState with
      conversation_stage := Stage.technical_questions
      technical_questions := ["**Python**: Q1", "**Django**: Q2"] }

/-- A session whose conversation has already ended. -/
def endedState : SessionState :=
  { initialState with conversation_ended := true }

/-! ### Helper lemmas -/

/-- A generated question is labeled with a leading double star, so it
never starts with the error marker. -/
theorem pyStartswith_label_errMarker (tech rest : String) :
    pyStartswith ("**" ++ tech ++ "**: " ++ rest) errMarker = false := rfl

/-- Every question produced by the generator is free of the error
marker: failed calls are dropped, successful ones are star-labeled. -/
theorem generate_no_errMarker (llm : String → String) (tech_stack : List String)
    (num_questions : Nat) :
    ∀ q ∈ generate_technical_questions llm tech_stack num_questions,
      pyStartswith q errMarker = false := by
  intro q hq
  simp only [generate_technical_questions, List.mem_filterMap] at hq
  obtain ⟨tech, _, hf⟩ := hq
  split at hf
  · obtain rfl : "**" ++ tech ++ "**: " ++ cleanQuestion (llm (question_prompt tech)) = q :=
      Option.some.inj hf
    exact pyStartswith_label_errMarker _ _
  · exact absurd hf (by simp)

/-- dedupFirst produces a list that avoids the seen accumulator and has
no duplicates. -/
theorem dedupFirst_nodup (l seen : List String) :
    (∀ x ∈ dedupFirst seen l, x ∉ seen) ∧ (dedupFirst seen l).Nodup := by
  induction l generalizing seen with
  | nil => exact ⟨by simp [dedupFirst], by simp [dedupFirst]⟩
  | cons t rest ih =>
    unfold dedupFirst
    split
    · exact ⟨fun x hx => (ih seen).1 x hx, (ih seen).2⟩
    · rename_i hseen
      constructor
      · intro x hx
        rcases List.mem_cons.mp hx with rfl | hx
        · exact hseen
        · exact fun hs => (ih (t :: seen)).1 x hx (List.mem_cons_of_mem t hs)
      · refine List.nodup_cons.mpr ⟨fun hmem => ?_, (ih (t :: seen)).2⟩
        exact (ih (t :: seen)).1 t hmem (List.mem_cons_self t seen)

/-! ### C1: the end-to-end scenario -/

/-- C1, counterexample: running the seven scenario inputs from a fresh
info_gathering session does not leave the tech stack claimed by the
specification: the substring matcher also finds "go" inside "django". -/
theorem c1_scenario_counterexample :
    (runConversation llm0 infoStart scenarioInputs).candidate_info.tech_stack ≠
      ["Python", "Django", "Postgresql"] := by decide

/-- C1, amended: for any gateway oracle (never consulted before the
generation stage), the seven scenario inputs drive the fresh
info_gathering session to a fully populated record, stage
generating_questions, and stored tech stack
["Python", "Go", "Django", "Postgresql"]. -/
theorem c1_scenario_amended (llm : String → String) :
    (runConversation llm infoStart scenarioInputs).candidate_info.name ≠ "" ∧
    (runConversation llm infoStart scenarioInputs).candidate_info.email ≠ "" ∧
    (runConversation llm infoStart scenarioInputs).candidate_info.phone ≠ "" ∧
    (runConversation llm infoStart scenarioInputs).candidate_info.experience ≠ "" ∧
    (runConversation llm infoStart scenarioInputs).candidate_info.position ≠ "" ∧
    (runConversation llm infoStart scenarioInputs).candidate_info.location ≠ "" ∧
    (runConversation llm infoStart scenarioInputs).conversation_stage =
      Stage.generating_questions ∧
    (runConversation llm infoStart scenarioInputs).candidate_info.tech_stack =
      ["Python", "Go", "Django", "Postgresql"] := by
  have h : runConversation llm infoStart scenarioInputs = scenarioFinal := rfl
  refine ⟨?_, ?_, ?_, ?_, ?_, ?_, ?_, ?_⟩ <;> rw [h] <;> decide

/-- C1, witness: the amended scenario at the trivial oracle. -/
theorem c1_scenario_amended_witness :
    (runConversation llm0 infoStart scenarioInputs).conversation_stage =
      Stage.generating_questions ∧
    (runConversation llm0 infoStart scenarioInputs).candidate_info.tech_stack =
      ["Python", "Go", "Django", "Postgresql"] :=
  (c1_scenario_amended llm0).2.2.2.2.2.2

/-! ### C2: partial generation failure -/

/-- C2, counterexample: with one successful and one failed gateway call,
the generating stage stores the partially built one-question list and
advances to technical_questions instead of returning the retry message:
the generator silently drops failed calls, so the dispatcher error check
never fires. -/
theorem c2_partial_failure_counterexample :
    (handle_conversation llmMixed genState "continue").fst.conversation_stage =
      Stage.technical_questions ∧
    (handle_conversation llmMixed genState "continue").fst.technical_questions =
      ["**Python**: What is a Python decorator and when would you use one"] ∧
    (handle_conversation llmMixed genState "continue").snd ≠
      some generation_failed_message := by
  refine ⟨?_, ?_, ?_⟩ <;> decide

/-- C2, amended: in the generating stage, whenever at least one
per-technology call succeeds, the dispatcher stores exactly the list of
successfully generated questions (failed technologies are silently
dropped), resets the cursor, and advances to technical_questions; the
single retry response occurs only when that list is empty. -/
theorem c2_partial_failure_amended (llm : String → String) (st : SessionState)
    (input : String)
    (hend : st.conversation_ended = false)
    (hdet : detect_conversation_ending input = false)
    (hst : st.conversation_stage = Stage.generating_questions) :
    handle_conversation llm st input =
      (if generate_technical_questions llm st.candidate_info.tech_stack
            (min 3 st.candidate_info.tech_stack.length) = [] then
        (st, some generation_failed_message)
      else
        ({ st with
            technical_questions := generate_technical_questions llm
              st.candidate_info.tech_stack (min 3 st.candidate_info.tech_stack.length)
            current_question_index := 0
            conversation_stage := Stage.technical_questions },
         some (assessment_ready_message (generate_technical_questions llm
           st.candidate_info.tech_stack (min 3 st.candidate_info.tech_stack.length))))) := by
  have hany : (generate_technical_questions llm st.candidate_info.tech_stack
      (min 3 st.candidate_info.tech_stack.length)).any
        (fun q => pyStartswith q errMarker) = false := by
    rw [List.any_eq_false]
    intro x hx
    simp [generate_no_errMarker llm _ _ x hx]
  by_cases hq : generate_technical_questions llm st.candidate_info.tech_stack
      (min 3 st.candidate_info.tech_stack.length) = []
  · simp [handle_conversation, hend, hdet, hst, hq]
  · have hemp : (generate_technical_questions llm st.candidate_info.tech_stack
        (min 3 st.candidate_info.tech_stack.length)).isEmpty = false :=
      List.isEmpty_eq_false.mpr hq
    simp [handle_conversation, hend, hdet, hst, hq, hemp, hany]

/-- C2, witness: the amended statement at the mixed oracle, where the
partial one-question list is stored. -/
theorem c2_partial_failure_amended_witness :
    detect_conversation_ending "continue" = false ∧
    handle_conversation llmMixed genState "continue" =
      ({ genState with
          technical_questions := generate_technical_questions llmMixed
            genState.candidate_info.tech_stack
            (min 3 genState.candidate_info.tech_stack.length)
          current_question_index := 0
          conversation_stage := Stage.technical_questions },
       some (assessment_ready_message (generate_technical_questions llmMixed
         genState.candidate_info.tech_stack
         (min 3 genState.candidate_info.tech_stack.length)))) := by
  constructor
  · decide
  · rw [c2_partial_failure_amended llmMixed genState "continue" rfl (by decide) rfl]
    rw [if_neg (by decide)]

/-! ### C3: ending detection precedence and terminality -/

/-- C3: in any session whose conversation has not ended, an input that
matches an ending pattern sets the ended flag and returns the closing
message with no stage dispatch and no other state change; and once
ended, every input returns the fixed ended message and changes nothing,
so the flag never reverts. -/
theorem c3_ending_precedence (llm : String → String) (st : SessionState)
    (input : String) :
    (st.conversation_ended = false → detect_conversation_ending input = true →
      handle_conversation llm st input =
        ({ st with conversation_ended := true }, some closing_message)) ∧
    (st.conversation_ended = true →
      handle_conversation llm st input = (st, some ended_message)) := by
  constructor
  · intro h1 h2
    simp [handle_conversation, h1, h2]
  · intro h1
    simp [handle_conversation, h1]

/-- C3, witness: the closing turn on "ok thanks, bye!" from a fresh
session, and the fixed reply once ended. -/
theorem c3_ending_precedence_witness :
    handle_conversation llm0 initialState "ok thanks, bye!" =
      ({ initialState with conversation_ended := true }, some closing_message) ∧
    handle_conversation llm0 endedState "hello again" = (endedState, some ended_message) :=
  ⟨(c3_ending_precedence llm0 initialState "ok thanks, bye!").1 rfl (by decide),
   (c3_ending_precedence llm0 endedState "hello again").2 rfl⟩

/-! ### C6: the greeting stage forwards its input -/

/-- C6: from the greeting stage, any input that is not an ending phrase
is handled by moving the stage to info_gathering and immediately running
the information-gathering handler on that same input, so the reply and
the record update are those of the first information-gathering turn. -/
theorem c6_greeting_forwards (llm : String → String) (st : SessionState)
    (input : String)
    (hend : st.conversation_ended = false)
    (hdet : detect_conversation_ending input = false)
    (hst : st.conversation_stage = Stage.greeting) :
    handle_conversation llm st input =
      handle_information_gathering
        { st with conversation_stage := Stage.info_gathering } input := by
  simp [handle_conversation, hend, hdet, hst]

/-- C6, witness: the first scenario input from a fresh greeting session. -/
theorem c6_greeting_forwards_witness :
    detect_conversation_ending "Jane Doe" = false ∧
    handle_conversation llm0 initialState "Jane Doe" =
      handle_information_gathering
        { initialState with conversation_stage := Stage.info_gathering } "Jane Doe" :=
  ⟨by decide, c6_greeting_forwards llm0 initialState "Jane Doe" rfl (by decide) rfl⟩

/-! ### C9: the extractor deduplicates and is case-insensitive -/

/-- C9: the extracted technology list never contains duplicates, and the
matcher is case-insensitive, keeping the first occurrence only:
extracting from "Python and python again" yields exactly ["Python"]. -/
theorem c9_extract_nodup :
    (∀ text : String, (extract_tech_stack text).Nodup) ∧
    extract_tech_stack "Python and python again" = ["Python"] := by
  constructor
  · intro text
    exact (dedupFirst_nodup _ []).2
  · decide

/-- C9, witness: deduplication at a concrete input with two categories. -/
theorem c9_extract_nodup_witness :
    (extract_tech_stack "Go, Django and more go").Nodup ∧
    extract_tech_stack "Python and python again" = ["Python"] :=
  ⟨c9_extract_nodup.1 "Go, Django and more go", c9_extract_nodup.2⟩

/-! ### C5: the technical-question cursor -/

/-- Stepping the technical handler any number of times while the cursor
stays within the question list: each step appends one answer and
advances the cursor, the question list is untouched, and the stage
reaches conclusion exactly when the cursor lands on the end after at
least one step. -/
theorem runTech_general (inputs : List String) : ∀ st : SessionState,
    st.conversation_stage = Stage.technical_questions →
    st.current_question_index + inputs.length ≤ st.technical_questions.length →
    (runTech st inputs).technical_answers.length =
      st.technical_answers.length + inputs.length ∧
    (runTech st inputs).current_question_index =
      st.current_question_index + inputs.length ∧
    (runTech st inputs).technical_questions = st.technical_questions ∧
    ((runTech st inputs).conversation_stage = Stage.conclusion ↔
      (1 ≤ inputs.length ∧
        st.current_question_index + inputs.length = st.technical_questions.length)) := by
  induction inputs with
  | nil =>
    intro st hstage _
    refine ⟨by simp [runTech], by simp [runTech], by simp [runTech], ?_⟩
    show st.conversation_stage = Stage.conclusion ↔ _
    rw [hstage]
    simp
  | cons i rest ih =>
    intro st hstage hle
    rw [List.length_cons] at hle
    have hlt : st.current_question_index < st.technical_questions.length := by omega
    have hrun : runTech st (i :: rest) = runTech (handle_technical_questions st i).fst rest := rfl
    by_cases hlt2 : st.current_question_index + 1 < st.technical_questions.length
    · have hstep : (handle_technical_questions st i).fst = { st with
          technical_answers := st.technical_answers ++
            [⟨st.technical_questions.getD st.current_question_index "", pyStrip i⟩]
          current_question_index := st.current_question_index + 1 } := by
        simp [handle_technical_questions, hlt, hlt2]
      rw [hrun, hstep]
      obtain ⟨a1, a2, a3, a4⟩ := ih
        { st with
          technical_answers := st.technical_answers ++
            [⟨st.technical_questions.getD st.current_question_index "", pyStrip i⟩]
          current_question_index := st.current_question_index + 1 }
        (by simp [hstage]) (by simp; omega)
      refine ⟨?_, ?_, ?_, ?_⟩
      · rw [a1]; simp [List.length_append]; omega
      · rw [a2]; simp; omega
      · rw [a3]
      · rw [a4]; simp; omega
    · have hend2 : st.current_question_index + 1 = st.technical_questions.length := by omega
      have hrest : rest = [] := List.eq_nil_of_length_eq_zero (by omega)
      have hstep : (handle_technical_questions st i).fst = { st with
          technical_answers := st.technical_answers ++
            [⟨st.technical_questions.getD st.current_question_index "", pyStrip i⟩]
          current_question_index := st.current_question_index + 1
          conversation_stage := Stage.conclusion } := by
        simp [handle_technical_questions, hlt, hlt2]
      subst hrest
      rw [hrun, hstep]
      refine ⟨by simp [runTech], by simp [runTech], by simp [runTech], ?_⟩
      show Stage.conclusion = Stage.conclusion ↔ _
      simp
      omega

/-- C5: from the technical-questions stage with the cursor at zero and k
answer inputs, 1 <= k <= number of stored questions, exactly k answer
records are appended, the cursor ends at k, and the stage is conclusion
exactly when k equals the number of stored questions. -/
theorem c5_cursor (st : SessionState) (inputs : List String)
    (hstage : st.conversation_stage = Stage.technical_questions)
    (hidx : st.current_question_index = 0)
    (h1 : 1 ≤ inputs.length)
    (hN : inputs.length ≤ st.technical_questions.length) :
    (runTech st inputs).technical_answers.length =
      st.technical_answers.length + inputs.length ∧
    (runTech st inputs).current_question_index = inputs.length ∧
    ((runTech st inputs).conversation_stage = Stage.conclusion ↔
      inputs.length = st.technical_questions.length) := by
  obtain ⟨a1, a2, _, a4⟩ := runTech_general inputs st hstage (by omega)
  refine ⟨a1, by omega, ?_⟩
  rw [a4]
  omega

/-- C5, witness: two questions, two answer turns: two answers recorded,
cursor at two, stage concluded. -/
theorem c5_cursor_witness :
    (runTech techState ["answer one", "answer two"]).technical_answers.length = 2 ∧
    (runTech techState ["answer one", "answer two"]).current_question_index = 2 ∧
    (runTech techState ["answer one", "answer two"]).conversation_stage = Stage.conclusion := by
  obtain ⟨a1, a2, a3⟩ := c5_cursor techState ["answer one", "answer two"] rfl rfl
    (by decide) (by decide)
  exact ⟨by simpa using a1, a2, a3.mpr (by decide)⟩

/-! ### C10: the stage only moves forward -/

/-- The information handler leaves the stage alone or moves it to
generating_questions. -/
theorem info_stage_cases (st : SessionState) (input : String) :
    (handle_information_gathering st input).fst.conversation_stage = st.conversation_stage ∨
    (handle_information_gathering st input).fst.conversation_stage =
      Stage.generating_questions := by
  simp only [handle_information_gathering]
  repeat' split
  all_goals simp

/-- The technical handler leaves the stage alone or moves it to
conclusion. -/
theorem tech_stage_cases (st : SessionState) (input : String) :
    (handle_technical_questions st input).fst.conversation_stage = st.conversation_stage ∨
    (handle_technical_questions st input).fst.conversation_stage = Stage.conclusion := by
  simp only [handle_technical_questions]
  repeat' split
  all_goals simp

/-- The technical handler never touches the candidate record. -/
theorem tech_candidate_info (st : SessionState) (input : String) :
    (handle_technical_questions st input).fst.candidate_info = st.candidate_info := by
  simp only [handle_technical_questions]
  repeat' split
  all_goals simp

/-- C10: one dispatcher turn never moves the stage backwards in the
order greeting, info_gathering, generating_questions,
technical_questions, conclusion. -/
theorem c10_stage_monotone (llm : String → String) (st : SessionState) (input : String) :
    stageRank st.conversation_stage ≤
      stageRank (handle_conversation llm st input).fst.conversation_stage := by
  by_cases hend : st.conversation_ended = true
  · have h : (handle_conversation llm st input).fst = st := by
      unfold handle_conversation
      rw [if_pos hend]
    rw [h]
  · rw [Bool.not_eq_true] at hend
    by_cases hdet : detect_conversation_ending input = true
    · have h : (handle_conversation llm st input).fst =
          { st with conversation_ended := true } := by
        unfold handle_conversation
        rw [if_neg (by simp [hend]), if_pos hdet]
      rw [h]
    · rw [Bool.not_eq_true] at hdet
      unfold handle_conversation
      rw [if_neg (by simp [hend]), if_neg (by simp [hdet])]
      split
      · rename_i heq
        rw [heq]
        exact Nat.zero_le _
      · rename_i heq
        rw [heq]
        rcases info_stage_cases st input with h2 | h2
        · rw [h2, heq]
        · rw [h2]
          decide
      · rename_i heq
        rw [heq]
        split
        · show stageRank Stage.generating_questions ≤ stageRank Stage.technical_questions
          decide
        · show stageRank Stage.generating_questions ≤ stageRank st.conversation_stage
          rw [heq]
      · rename_i heq
        rw [heq]
        rcases tech_stage_cases st input with h2 | h2
        · rw [h2, heq]
        · rw [h2]
          decide
      · show stageRank st.conversation_stage ≤ stageRank st.conversation_stage
        exact Nat.le_refl _

/-- C10, witness: a fresh greeting turn does not move the stage back. -/
theorem c10_stage_monotone_witness :
    stageRank initialState.conversation_stage ≤
      stageRank (handle_conversation llm0 initialState "hello").fst.conversation_stage :=
  c10_stage_monotone llm0 initialState "hello"

/-! ### C4: fields fill strictly left to right, never overwritten -/

/-- A string of positive length is not the empty string. -/
theorem ne_empty_of_length_pos {s : String} (h : 0 < s.length) : s ≠ "" := by
  intro he
  rw [he] at h
  exact absurd h (by decide)

/-- A string of length zero is the empty string. -/
theorem eq_empty_of_length_zero {s : String} (h : s.length = 0) : s = "" := by
  rw [String.ext_iff]
  exact List.eq_nil_of_length_eq_zero h

/-- titleAux preserves length. -/
theorem titleAux_length (l : List Char) (b : Bool) : (titleAux l b).length = l.length := by
  induction l generalizing b with
  | nil => rfl
  | cons c cs ih => simp [titleAux, ih]

/-- pyTitle preserves length. -/
theorem pyTitle_length (s : String) : (pyTitle s).length = s.length := by
  show (titleAux s.data false).length = s.data.length
  exact titleAux_length s.data false

/-- pyTitle of a nonempty string is nonempty. -/
theorem pyTitle_ne_empty {s : String} (h : s ≠ "") : pyTitle s ≠ "" := by
  intro he
  refine h (eq_empty_of_length_zero ?_)
  rw [← pyTitle_length s, he]
  rfl

/-- pyLower preserves length. -/
theorem pyLower_length (s : String) : (pyLower s).length = s.length := by
  show (s.data.map Char.toLower).length = s.data.length
  simp

/-- pyLower of a nonempty string is nonempty. -/
theorem pyLower_ne_empty {s : String} (h : s ≠ "") : pyLower s ≠ "" := by
  intro he
  refine h (eq_empty_of_length_zero ?_)
  rw [← pyLower_length s, he]
  rfl

/-- A validated email has length at least five. -/
theorem validate_email_length {s : String} (h : validate_email s = true) : 5 ≤ s.length := by
  unfold validate_email at h
  split at h
  · exact absurd h (by simp)
  · rename_i hc
    simp only [Bool.or_eq_true, decide_eq_true_eq, not_or, not_lt] at hc
    exact hc.1

/-- A validated phone string is nonempty. -/
theorem validate_phone_ne_empty {s : String} (h : validate_phone s = true) : s ≠ "" := by
  intro he
  rw [he] at h
  exact absurd h (by decide)

/-- A validated experience string is nonempty. -/
theorem validate_experience_ne_empty {s : String} (h : validate_experience s = true) :
    s ≠ "" := by
  intro he
  rw [he] at h
  exact absurd h (by decide)

/-- Filling the name of an order-closed record with a nonempty value. -/
theorem orderOK_set_name {i : CandidateInfo} {v : String} (h : orderOK i) (hv : v ≠ "") :
    orderOK { i with name := v } :=
  ⟨fun _ => hv, h.2.1, h.2.2.1, h.2.2.2.1, h.2.2.2.2.1, h.2.2.2.2.2⟩

/-- Filling the email of an order-closed record whose name is set. -/
theorem orderOK_set_email {i : CandidateInfo} {v : String} (h : orderOK i)
    (hname : i.name ≠ "") (hv : v ≠ "") : orderOK { i with email := v } :=
  ⟨fun _ => hname, fun _ => hv, h.2.2.1, h.2.2.2.1, h.2.2.2.2.1, h.2.2.2.2.2⟩

/-- Filling the phone of an order-closed record whose email is set. -/
theorem orderOK_set_phone {i : CandidateInfo} {v : String} (h : orderOK i)
    (hemail : i.email ≠ "") (hv : v ≠ "") : orderOK { i with phone := v } :=
  ⟨h.1, fun _ => hemail, fun _ => hv, h.2.2.2.1, h.2.2.2.2.1, h.2.2.2.2.2⟩

/-- Filling the experience of an order-closed record whose phone is set. -/
theorem orderOK_set_experience {i : CandidateInfo} {v : String} (h : orderOK i)
    (hphone : i.phone ≠ "") (hv : v ≠ "") : orderOK { i with experience := v } :=
  ⟨h.1, h.2.1, fun _ => hphone, fun _ => hv, h.2.2.2.2.1, h.2.2.2.2.2⟩

/-- Filling the position of an order-closed record whose experience is set. -/
theorem orderOK_set_position {i : CandidateInfo} {v : String} (h : orderOK i)
    (hexp : i.experience ≠ "") (hv : v ≠ "") : orderOK { i with position := v } :=
  ⟨h.1, h.2.1, h.2.2.1, fun _ => hexp, fun _ => hv, h.2.2.2.2.2⟩

/-- Filling the location of an order-closed record whose position is set. -/
theorem orderOK_set_location {i : CandidateInfo} {v : String} (h : orderOK i)
    (hpos : i.position ≠ "") (hv : v ≠ "") : orderOK { i with location := v } :=
  ⟨h.1, h.2.1, h.2.2.1, h.2.2.2.1, fun _ => hpos, fun _ => hv⟩

/-- Filling the tech stack of an order-closed record whose location is set. -/
theorem orderOK_set_tech {i : CandidateInfo} {v : List String} (h : orderOK i)
    (hloc : i.location ≠ "") : orderOK { i with tech_stack := v } :=
  ⟨h.1, h.2.1, h.2.2.1, h.2.2.2.1, h.2.2.2.2.1, fun _ => hloc⟩

/-- The information handler keeps the record order-closed. -/
theorem info_orderOK (st : SessionState) (input : String)
    (h : orderOK st.candidate_info) :
    orderOK (handle_information_gathering st input).fst.candidate_info := by
  simp only [handle_information_gathering]
  split
  · split
    · rename_i hlen
      exact orderOK_set_name h (pyTitle_ne_empty (ne_empty_of_length_pos (by omega)))
    · exact h
  · rename_i hname
    split
    · split
      · rename_i hval
        exact orderOK_set_email h hname
          (pyLower_ne_empty (ne_empty_of_length_pos (by
            have := validate_email_length hval
            omega)))
      · exact h
    · rename_i hemail
      split
      · split
        · rename_i hval
          exact orderOK_set_phone h hemail (validate_phone_ne_empty hval)
        · exact h
      · rename_i hphone
        split
        · split
          · rename_i hval
            exact orderOK_set_experience h hphone (validate_experience_ne_empty hval)
          · exact h
        · rename_i hexp
          split
          · split
            · rename_i hlen
              exact orderOK_set_position h hexp
                (pyTitle_ne_empty (ne_empty_of_length_pos (by omega)))
            · exact h
          · rename_i hpos
            split
            · split
              · rename_i hlen
                exact orderOK_set_location h hpos
                  (pyTitle_ne_empty (ne_empty_of_length_pos (by omega)))
              · exact h
            · rename_i hloc
              split
              · split
                · exact orderOK_set_tech h hloc
                · exact h
              · exact h

/-- Each record equals itself field by field. -/
theorem preservesFilled_refl (i : CandidateInfo) : preservesFilled i i :=
  ⟨fun _ => rfl, fun _ => rfl, fun _ => rfl, fun _ => rfl, fun _ => rfl,
   fun _ => rfl, fun _ => rfl⟩

/-- The information handler never clears or overwrites a set field. -/
theorem info_preserves (st : SessionState) (input : String) :
    preservesFilled st.candidate_info
      (handle_information_gathering st input).fst.candidate_info := by
  simp only [handle_information_gathering, preservesFilled]
  repeat' split
  all_goals simp_all

/-- One dispatcher turn keeps the record order-closed. -/
theorem conv_orderOK (llm : String → String) (st : SessionState) (input : String)
    (h : orderOK st.candidate_info) :
    orderOK (handle_conversation llm st input).fst.candidate_info := by
  unfold handle_conversation
  split
  · exact h
  · split
    · exact h
    · split
      · exact info_orderOK { st with conversation_stage := Stage.info_gathering } input h
      · exact info_orderOK st input h
      · split
        · exact h
        · exact h
      · rw [tech_candidate_info]
        exact h
      · exact h

/-- One dispatcher turn never clears or overwrites a set field. -/
theorem conv_preserves (llm : String → String) (st : SessionState) (input : String) :
    preservesFilled st.candidate_info
      (handle_conversation llm st input).fst.candidate_info := by
  unfold handle_conversation
  split
  · exact preservesFilled_refl _
  · split
    · exact preservesFilled_refl _
    · split
      · exact info_preserves { st with conversation_stage := Stage.info_gathering } input
      · exact info_preserves st input
      · split
        · exact preservesFilled_refl _
        · exact preservesFilled_refl _
      · rw [tech_candidate_info]
        exact preservesFilled_refl _
      · exact preservesFilled_refl _

/-- C4: from a fresh session, after any sequence of inputs the record is
filled left to right (a set field implies all earlier fields are set),
and the information handler never clears or overwrites a set field. -/
theorem c4_field_order (llm : String → String) (inputs : List String)
    (st : SessionState) (input : String) :
    orderOK (runConversation llm initialState inputs).candidate_info ∧
    preservesFilled st.candidate_info
      (handle_information_gathering st input).fst.candidate_info := by
  constructor
  · have hstep : ∀ (l : List String) (s : SessionState), orderOK s.candidate_info →
        orderOK (runConversation llm s l).candidate_info := by
      intro l
      induction l with
      | nil => intro s hs; exact hs
      | cons i rest ih =>
        intro s hs
        exact ih ((handle_conversation llm s i).fst) (conv_orderOK llm s i hs)
    exact hstep inputs initialState (by decide)
  · exact info_preserves st input

/-- C4, witness: the invariant after one concrete input, and
preservation at a concrete partly-filled record. -/
theorem c4_field_order_witness :
    orderOK (runConversation llm0 initialState ["Jane Doe"]).candidate_info ∧
    preservesFilled genState.candidate_info
      (handle_information_gathering genState "anything").fst.candidate_info :=
  c4_field_order llm0 ["Jane Doe"] genState "anything"

/-! ### C7: the phone validator -/

/-- The anchored phone pattern, characterized: either a plus followed by
2 to 15 digits whose first digit is non-zero, or exactly 10 digits whose
first digit is non-zero. -/
theorem phoneMatch_iff (l : List Char) :
    phoneMatch l = true ↔
      ((∃ d ds, l = '+' :: d :: ds ∧ d ≠ '0' ∧ (∀ c ∈ d :: ds, c.isDigit = true) ∧
          2 ≤ (d :: ds).length ∧ (d :: ds).length ≤ 15) ∨
       (∃ d ds, l = d :: ds ∧ d ≠ '0' ∧ (∀ c ∈ d :: ds, c.isDigit = true) ∧
          (d :: ds).length = 10)) := by
  have hplus : ('+').isDigit = false := rfl
  cases l with
  | nil => simp [phoneMatch]
  | cons c rest =>
    by_cases hc : c = '+'
    · subst hc
      cases rest with
      | nil => simp [phoneMatch, hplus]
      | cons d ds =>
        simp [phoneMatch, isNonzeroDigit, List.all_eq_true, hplus, List.cons.injEq]
        constructor
        · rintro ⟨⟨⟨⟨hA, hB⟩, hC⟩, hD⟩, hE⟩
          exact Or.inl ⟨d, ds, ⟨rfl, rfl⟩, hB, ⟨hA, hC⟩, hD, hE⟩
        · rintro (⟨d1, ds1, ⟨rfl, rfl⟩, hB, ⟨hA, hC⟩, hD, hE⟩ |
            ⟨d1, ds1, ⟨heq1, heq2⟩, hB, ⟨hA, hC⟩, hlen⟩)
          · exact ⟨⟨⟨⟨hA, hB⟩, hC⟩, hD⟩, hE⟩
          · subst heq1
            exact absurd hA (by decide)
    · simp [phoneMatch, hc, isNonzeroDigit, List.all_eq_true, List.cons.injEq]
      constructor
      · rintro ⟨⟨⟨hA, hB⟩, hC⟩, hD⟩
        exact ⟨c, rest, ⟨rfl, rfl⟩, hB, ⟨hA, hC⟩, hD⟩
      · rintro ⟨d, ds, ⟨rfl, rfl⟩, hB, ⟨hA, hC⟩, hD⟩
        exact ⟨⟨⟨hA, hB⟩, hC⟩, hD⟩

/-- C7: validate_phone accepts exactly the strings whose cleaned form
(whitespace, hyphens and parentheses removed) is a plus followed by 2 to
15 digits with a non-zero first digit, or exactly 10 digits with a
non-zero first digit; in particular the two quoted examples. -/
theorem c7_validate_phone :
    (∀ s : String, validate_phone s = true ↔
      ((∃ d ds, phoneClean s = '+' :: d :: ds ∧ d ≠ '0' ∧
          (∀ c ∈ d :: ds, c.isDigit = true) ∧ 2 ≤ (d :: ds).length ∧
          (d :: ds).length ≤ 15) ∨
       (∃ d ds, phoneClean s = d :: ds ∧ d ≠ '0' ∧
          (∀ c ∈ d :: ds, c.isDigit = true) ∧ (d :: ds).length = 10))) ∧
    validate_phone "+1 (415) 555-0100" = true ∧
    validate_phone "0123456789" = false := by
  refine ⟨?_, by decide, by decide⟩
  intro s
  by_cases hd : s.data.isEmpty = true
  · have hclean : phoneClean s = [] := by
      unfold phoneClean
      rw [List.isEmpty_iff.mp hd]
      rfl
    unfold validate_phone
    rw [if_pos hd]
    simp [hclean]
  · rw [Bool.not_eq_true] at hd
    unfold validate_phone
    rw [if_neg (by simp [hd])]
    exact phoneMatch_iff (phoneClean s)

/-- C7, witness: the two concrete examples, by the theorem itself. -/
theorem c7_validate_phone_witness :
    validate_phone "+1 (415) 555-0100" = true ∧ validate_phone "0123456789" = false :=
  ⟨c7_validate_phone.2.1, c7_validate_phone.2.2⟩

/-! ### C8: the experience validator -/

/-- dropWhile skips a block that satisfies the predicate throughout. -/
theorem dropWhile_append_all {p : Char → Bool} {l1 l2 : List Char}
    (h : ∀ c ∈ l1, p c = true) : (l1 ++ l2).dropWhile p = l2.dropWhile p := by
  induction l1 with
  | nil => rfl
  | cons a t ih =>
    rw [List.cons_append, List.dropWhile_cons, if_pos (h a (List.mem_cons_self a t))]
    exact ih (fun c hc => h c (List.mem_cons_of_mem a hc))

/-- takeWhile keeps a block that satisfies the predicate throughout. -/
theorem takeWhile_append_all {p : Char → Bool} {l1 l2 : List Char}
    (h : ∀ c ∈ l1, p c = true) : (l1 ++ l2).takeWhile p = l1 ++ l2.takeWhile p := by
  induction l1 with
  | nil => rfl
  | cons a t ih =>
    rw [List.cons_append, List.takeWhile_cons, if_pos (h a (List.mem_cons_self a t)),
      List.cons_append]
    rw [ih (fun c hc => h c (List.mem_cons_of_mem a hc))]

/-- The head left after dropWhile fails the predicate. -/
theorem head_dropWhile_false {p : Char → Bool} : ∀ (l : List Char) (c : Char),
    (l.dropWhile p).head? = some c → p c = false := by
  intro l
  induction l with
  | nil => intro c h; simp [List.dropWhile] at h
  | cons a t ih =>
    intro c h
    rw [List.dropWhile_cons] at h
    split at h
    · exact ih c h
    · rename_i hpa
      rw [Bool.not_eq_true] at hpa
      simp at h
      rw [← h]
      exact hpa

/-- C8: validate_experience accepts exactly the strings containing a
digit whose first maximal digit run (no digit before it, no digit right
after it) has numeric value at most 50; the lower bound zero of the
source range check always holds. -/
theorem c8_validate_experience (s : String) :
    validate_experience s = true ↔
      ∃ pre run post, s.data = pre ++ run ++ post ∧
        (∀ c ∈ pre, c.isDigit = false) ∧ run ≠ [] ∧ (∀ c ∈ run, c.isDigit = true) ∧
        (∀ c, post.head? = some c → c.isDigit = false) ∧ digitsToNat run ≤ 50 := by
  constructor
  · intro h
    have hparts : s.data ≠ [] ∧ (firstDigitRun s.data).isEmpty = false ∧
        digitsToNat (firstDigitRun s.data) ≤ 50 := by
      unfold validate_experience at h
      split at h
      · exact absurd h (by simp)
      · rename_i h1
        split at h
        · exact absurd h (by simp)
        · rename_i h2
          refine ⟨?_, ?_, by simpa using h⟩
          · rw [Bool.not_eq_true, List.isEmpty_eq_false] at h1
            exact h1
          · rw [Bool.not_eq_true] at h2
            exact h2
    obtain ⟨hne, hrun, hval⟩ := hparts
    refine ⟨s.data.takeWhile (fun c => !c.isDigit),
      (s.data.dropWhile (fun c => !c.isDigit)).takeWhile Char.isDigit,
      (s.data.dropWhile (fun c => !c.isDigit)).dropWhile Char.isDigit,
      ?_, ?_, ?_, ?_, ?_, ?_⟩
    · rw [List.append_assoc,
        List.takeWhile_append_dropWhile Char.isDigit (s.data.dropWhile (fun c => !c.isDigit))]
      exact (List.takeWhile_append_dropWhile _ _).symm
    · intro c hc
      have hx := List.mem_takeWhile_imp hc
      simpa using hx
    · exact List.isEmpty_eq_false.mp hrun
    · intro c hc
      exact List.mem_takeWhile_imp hc
    · intro c hc
      exact head_dropWhile_false _ c hc
    · exact hval
  · rintro ⟨pre, run, post, hdec, hpre, hrun_ne, hrun_dig, hpost, hval⟩
    have hfdr : firstDigitRun s.data = run := by
      unfold firstDigitRun
      rw [hdec, List.append_assoc]
      rw [dropWhile_append_all (by intro c hc; simpa using hpre c hc)]
      obtain ⟨r, rs, rfl⟩ : ∃ r rs, run = r :: rs := by
        cases run with
        | nil => exact absurd rfl hrun_ne
        | cons r rs => exact ⟨r, rs, rfl⟩
      rw [List.cons_append, List.dropWhile_cons,
        if_neg (by simp [hrun_dig r (List.mem_cons_self r rs)])]
      rw [← List.cons_append, takeWhile_append_all hrun_dig]
      cases post with
      | nil => simp
      | cons q qs =>
        rw [List.takeWhile_cons, if_neg (by simp [hpost q rfl])]
        simp
    have h1 : s.data.isEmpty = false := by
      rw [List.isEmpty_eq_false, hdec]
      simp [hrun_ne]
    have h2 : (firstDigitRun s.data).isEmpty = false := by
      rw [hfdr, List.isEmpty_eq_false]
      exact hrun_ne
    unfold validate_experience
    rw [if_neg (by simp [h1]), if_neg (by simp [h2]), hfdr]
    exact decide_eq_true hval

/-- C8, witness: the quoted example, decomposed by the theorem itself. -/
theorem c8_validate_experience_witness :
    validate_experience "I have 3 years" = true ∧
    (∃ pre run post, ("I have 3 years" : String).data = pre ++ run ++ post ∧
      (∀ c ∈ pre, c.isDigit = false) ∧ run ≠ [] ∧ (∀ c ∈ run, c.isDigit = true) ∧
      (∀ c, post.head? = some c → c.isDigit = false) ∧ digitsToNat run ≤ 50) :=
  ⟨by decide, (c8_validate_experience "I have 3 years").mp (by decide)⟩

end TalentScout

